import Mathlib

/-!
Verification of the QMS approval-workflow services against their
specification.  The definitions below are a shallow embedding of the
Python services in `services/documentservice.py`, `services/capaservices.py`,
`services/changecontrolservice.py` and `services/notificationsservice.py`,
together with the HTTP-layer action validation in `api/documentmanagement.py`.

Modelling conventions:
* Database sessions are modelled by explicit state passing: every service
  takes the relevant tables and returns the committed tables together with
  its Python return value.  `session.commit()` corresponds to returning the
  mutated tables; a raised exception before commit returns the tables
  unchanged.
* `datetime` values are modelled as `Int` seconds; `utcnow()` is an explicit
  `now` argument.
* Python `(value, message)` returns are modelled by `SvcOutcome`: `ok` for a
  `(obj, msg)` success, `err` for a `(None, msg)` failure, `raised` for an
  unhandled Python exception escaping the function.
* Python `int(...)` applied to version components is modelled for the
  non-negative decimal strings the services produce; any other string is a
  `ValueError`, modelled as `none`.
-/

namespace QMS

/-! ## Python string helpers -/

/-- Numeric value of a decimal digit character, `none` otherwise. -/
def charDigitVal (c : Char) : Option Nat :=
  if c.isDigit then some (c.toNat - 48) else none

/-- Value of a non-empty all-digit character list, `none` otherwise.
Models Python `int(s)` on the version components this code base produces. -/
def digitsVal (cs : List Char) : Option Nat :=
  match cs with
  | [] => none
  | _ =>
    cs.foldl
      (fun acc c =>
        match acc, charDigitVal c with
        | some a, some d => some (a * 10 + d)
        | _, _ => none)
      (some 0)

/-- Split a character list on the dot character; models Python
`s.split('.')`. -/
def splitDot : List Char → List (List Char)
  | [] => [[]]
  | c :: rest =>
    let r := splitDot rest
    if c = '.' then [] :: r
    else
      match r with
      | [] => [[c]]
      | h :: t => (c :: h) :: t

/-- Models `major, minor = map(int, version.split('.'))`: succeeds exactly
when the version splits into two integer components; otherwise Python
raises (`ValueError` from `int`, or unpacking error), modelled as `none`. -/
def split_version (version : String) : Option (Nat × Nat) :=
  match (splitDot version.toList).map digitsVal with
  | [some major, some minor] => some (major, minor)
  | _ => none

/-- Models `f"{major + 1}.0"` after parsing the current version. -/
def bump_major (version : String) : Option String :=
  match split_version version with
  | none => none
  | some (major, _) => some (toString (major + 1) ++ ".0")

/-- ASCII lowering of a string; models Python `str.lower()` on the ASCII
action strings used by the API layer. -/
def lowerStr (s : String) : String :=
  String.mk (s.toList.map Char.toLower)

/-- Does `pat` occur as a contiguous substring of the second list? -/
def headMatches : List Char → List Char → Bool
  | [], _ => true
  | _ :: _, [] => false
  | a :: as, b :: bs => a = b && headMatches as bs

/-- Substring occurrence over character lists. -/
def occursIn (pat : List Char) : List Char → Bool
  | [] => headMatches pat []
  | s =>
    match s with
    | [] => headMatches pat []
    | _ :: rest => headMatches pat s || occursIn pat rest

/-- `strHas s pat` is true when `pat` occurs as a substring of `s`. -/
def strHas (s pat : String) : Bool :=
  occursIn pat.toList s.toList

/-- Python truthiness of an optional integer: `None` and `0` are falsy. -/
def truthyOptNat (x : Option Nat) : Bool :=
  match x with
  | none => false
  | some n => n != 0

/-! ## Actor directory (`models.Employee` joined with `models.Role`) -/

/-- An employee row together with its resolved role name. -/
structure Employee where
  id : Nat
  full_name : String
  role : String
  deleted_at : Option Int
deriving DecidableEq, Repr

/-- Models `session.query(Employee).join(Role).filter(Employee.id == i,
Employee.deleted_at.is_(None), Role.name == role).first()`. -/
def findEmployeeWithRole (employees : List Employee) (i : Nat) (role : String) :
    Option Employee :=
  employees.find? (fun e => e.id == i && e.deleted_at.isNone && e.role == role)

/-- Models `session.query(Employee).filter(Employee.id == i).first()`. -/
def findEmployee (employees : List Employee) (i : Nat) : Option Employee :=
  employees.find? (fun e => e.id == i)

/-! ## Document model (`models.py`) -/

/-- `models.DocumentStatusEnum`. -/
inductive DocumentStatusEnum where
  | draft
  | under_review
  | under_approval
  | approved
  | rejected
  | archived
deriving DecidableEq, Repr

/-- The `.value` string of a `DocumentStatusEnum` member. -/
def DocumentStatusEnum.value : DocumentStatusEnum → String
  | .draft => "draft"
  | .under_review => "under_review"
  | .under_approval => "under_approval"
  | .approved => "approved"
  | .rejected => "rejected"
  | .archived => "archived"

/-- CPython `str()` of a `(str, Enum)` member is `"ClassName.member"`, not
the member value; `notificationsservice.get_notifications` compares this
string against bare value strings. -/
def DocumentStatusEnum.pyStr (s : DocumentStatusEnum) : String :=
  "DocumentStatusEnum." ++ s.value

/-- The workflow-relevant columns of `models.Document`. -/
structure Document where
  id : Nat
  status : DocumentStatusEnum
  version : String
  assigned_approver_id : Option Nat
  approved_at : Option Int
  updated_at : Option Int
  created_at : Option Int
  deleted_at : Option Int
  title : String
deriving DecidableEq, Repr

/-- `models.DocumentReview` rows, in insertion order. -/
structure DocumentReview where
  document_id : Nat
  reviewer_id : Option Nat
  action : String
  signature : String
  comments : Option String
deriving DecidableEq, Repr

/-- The document tables touched by `services/documentservice.py`. -/
structure DocDB where
  docs : List Document
  reviews : List DocumentReview
deriving DecidableEq, Repr

/-- Models `session.query(Document).filter(Document.id == document_id,
Document.deleted_at.is_(None)).first()`. -/
def findDocument (docs : List Document) (document_id : Nat) : Option Document :=
  docs.find? (fun d => d.id == document_id && d.deleted_at.isNone)

/-- Persist the mutated ORM row: replace the row with the same id. -/
def setDocument (docs : List Document) (d : Document) : List Document :=
  docs.map (fun x => if x.id == d.id then d else x)

/-- Result of a document service call: `(document, message)`, `(None,
message)`, or an unhandled exception. -/
inductive SvcOutcome (α : Type) where
  | ok (val : α) (msg : String)
  | err (msg : String)
  | raised (exn : String)
deriving DecidableEq, Repr

/-! ## Document services (`services/documentservice.py`) -/

/-- `documentservice.update_document_version` as a pure function: the new
version for a document moving to `new_status` (`none` models the
`ValueError` raised when the current version does not parse). -/
def update_document_version (document : Document) (new_status : DocumentStatusEnum) :
    Option String :=
  if new_status = DocumentStatusEnum.draft then
    if document.status = DocumentStatusEnum.rejected then bump_major document.version
    else some "1.0"
  else if new_status = DocumentStatusEnum.under_review then some "1.1"
  else if new_status = DocumentStatusEnum.under_approval then some "1.1"
  else if new_status = DocumentStatusEnum.approved then some "1.2"
  else if new_status = DocumentStatusEnum.rejected then bump_major document.version
  else some document.version

/-- `documentservice.send_document_to_reviewer`. -/
def send_document_to_reviewer (db : DocDB) (document_id : Nat) (signature : String)
    (reviewer_id : Option Nat) (now : Int) : DocDB × SvcOutcome Document :=
  match findDocument db.docs document_id with
  | none => (db, .err "Document not found")
  | some document =>
    if document.status ≠ DocumentStatusEnum.draft then
      (db, .err ("Document must be in draft status. Current status: "
        ++ document.status.value))
    else
      let document := { document with
        status := DocumentStatusEnum.under_review
        version := "1.1"
        updated_at := some now }
      let review : DocumentReview :=
        { document_id := document_id, reviewer_id := reviewer_id
          action := "sent_to_reviewer", signature := signature, comments := none }
      ({ docs := setDocument db.docs document, reviews := db.reviews ++ [review] },
        .ok document "Document sent to reviewer successfully (Version: 1.1)")

/-- `documentservice.review_document_action`.  For an action other than
`"reject"`/`"review"` the function still adds the review row, stamps
`updated_at` and commits, then hits `return document, message` with
`message` unbound: an `UnboundLocalError` escapes after the commit. -/
def review_document_action (db : DocDB) (document_id : Nat) (reviewer_id : Nat)
    (action : String) (signature : String) (comments : Option String) (now : Int) :
    DocDB × SvcOutcome Document :=
  match findDocument db.docs document_id with
  | none => (db, .err "Document not found")
  | some document =>
    if document.status ≠ DocumentStatusEnum.under_review then
      (db, .err ("Document must be under review. Current status: "
        ++ document.status.value))
    else
      let review : DocumentReview :=
        { document_id := document_id, reviewer_id := some reviewer_id
          action := action, signature := signature, comments := comments }
      if action = "reject" then
        match bump_major document.version with
        | none => (db, .raised "ValueError")
        | some newVersion =>
          let document := { document with
            status := DocumentStatusEnum.rejected
            version := newVersion
            updated_at := some now }
          ({ docs := setDocument db.docs document, reviews := db.reviews ++ [review] },
            .ok document ("Document rejected and version updated to " ++ newVersion))
      else if action = "review" then
        let document := { document with
          status := DocumentStatusEnum.under_review
          version := "1.1"
          updated_at := some now }
        ({ docs := setDocument db.docs document, reviews := db.reviews ++ [review] },
          .ok document
            "Document reviewed successfully (Version: 1.1) - ready for approval assignment")
      else
        let document := { document with updated_at := some now }
        ({ docs := setDocument db.docs document, reviews := db.reviews ++ [review] },
          .raised "UnboundLocalError")

/-- `documentservice.approve_document`. -/
def approve_document (db : DocDB) (document_id : Nat) (signature : String)
    (approved : Bool) (reviewer_id : Nat) (comments : Option String) (now : Int) :
    DocDB × SvcOutcome Document :=
  match findDocument db.docs document_id with
  | none => (db, .err "Document not found")
  | some document =>
    if document.status ≠ DocumentStatusEnum.under_approval then
      (db, .err ("Document must be under approval. Current status: "
        ++ document.status.value))
    else
      let review : DocumentReview :=
        { document_id := document_id, reviewer_id := some reviewer_id
          action := if approved then "approve" else "reject"
          signature := signature, comments := comments }
      if approved then
        let document := { document with
          status := DocumentStatusEnum.approved
          version := "1.2"
          approved_at := some now
          updated_at := some now }
        ({ docs := setDocument db.docs document, reviews := db.reviews ++ [review] },
          .ok document "Document approved successfully (Version: 1.2)")
      else
        match bump_major document.version with
        | none => (db, .raised "ValueError")
        | some newVersion =>
          let document := { document with
            status := DocumentStatusEnum.rejected
            version := newVersion
            updated_at := some now }
          ({ docs := setDocument db.docs document, reviews := db.reviews ++ [review] },
            .ok document ("Document rejected and version updated to " ++ newVersion))

/-- `documentservice.resubmit_rejected_document`. -/
def resubmit_rejected_document (db : DocDB) (document_id : Nat) (uploaded_by : Nat)
    (now : Int) : DocDB × SvcOutcome Document :=
  match findDocument db.docs document_id with
  | none => (db, .err "Document not found")
  | some document =>
    if document.status ≠ DocumentStatusEnum.rejected then
      (db, .err ("Document must be in rejected status. Current status: "
        ++ document.status.value))
    else
      let document := { document with
        status := DocumentStatusEnum.draft
        version := "1.0"
        updated_at := some now }
      let review : DocumentReview :=
        { document_id := document_id, reviewer_id := some uploaded_by
          action := "resubmitted", signature := ""
          comments := some "Document resubmitted after rejection" }
      ({ docs := setDocument db.docs document, reviews := db.reviews ++ [review] },
        .ok document "Document resubmitted successfully (Version: 1.0)")

/-- `documentservice.send_document_to_approver`.  Note: the service performs
no lookup of `approver_id` in the employee/role tables. -/
def send_document_to_approver (db : DocDB) (document_id : Nat) (signature : String)
    (approver_id : Nat) (now : Int) : DocDB × SvcOutcome Document :=
  match findDocument db.docs document_id with
  | none => (db, .err "Document not found")
  | some document =>
    if document.status ≠ DocumentStatusEnum.under_review then
      (db, .err ("Document must be under review. Current status: "
        ++ document.status.value))
    else
      let document := { document with
        status := DocumentStatusEnum.under_approval
        assigned_approver_id := some approver_id
        version := "1.1"
        updated_at := some now }
      let review : DocumentReview :=
        { document_id := document_id, reviewer_id := some approver_id
          action := "sent_to_approver", signature := signature, comments := none }
      ({ docs := setDocument db.docs document, reviews := db.reviews ++ [review] },
        .ok document "Document sent to approver successfully (Version: 1.1)")

/-- `documentservice.fix_document_status`: the after-the-fact repair of an
`under_approval` document with no assigned approver. -/
def fix_document_status (db : DocDB) (document_id : Nat) (now : Int) :
    DocDB × SvcOutcome Document :=
  match findDocument db.docs document_id with
  | none => (db, .err "Document not found")
  | some document =>
    if document.status = DocumentStatusEnum.under_approval
        ∧ document.assigned_approver_id = none then
      let document := { document with
        status := DocumentStatusEnum.under_review
        updated_at := some now }
      ({ docs := setDocument db.docs document, reviews := db.reviews },
        .ok document "Document status fixed - moved back to under_review")
    else
      (db, .ok document "Document status is correct")

/-! ## HTTP layer (`api/documentmanagement.py`) -/

/-- Result of an API endpoint: a JSON success, an `HTTPException`, or an
unhandled exception from the service layer. -/
inductive ApiResult (α : Type) where
  | ok (val : α)
  | httpError (code : Nat) (detail : String)
  | raised (exn : String)
deriving DecidableEq, Repr

/-- `documentmanagement.reviewer_action` (POST `/review-action`): validates
the action string case-insensitively before calling the service. -/
def reviewer_action (db : DocDB) (document_id : Nat) (action : String)
    (signature : String) (comments : Option String) (current_user_id : Nat)
    (now : Int) : DocDB × ApiResult (Document × String) :=
  let action_lower := lowerStr action
  if action_lower ≠ "review" ∧ action_lower ≠ "reject" then
    (db, .httpError 400 "Action must be review or reject")
  else
    match review_document_action db document_id current_user_id action_lower
        signature comments now with
    | (db2, .ok d msg) => (db2, .ok (d, msg))
    | (db2, .err msg) => (db2, .httpError 400 msg)
    | (db2, .raised e) => (db2, .raised e)

/-! ## CAPA model (enum values from the `create_capa_tables` migration) -/

/-- `models.CAPAStatusEnum` (values `OPEN`, `IN PROGRESS`,
`PENDING VERIFICATION`, `CLOSED`, `SENT BACK`). -/
inductive CAPAStatusEnum where
  | open_
  | in_progress
  | pending_verification
  | closed
  | sent_back
deriving DecidableEq, Repr

/-- The `.value` string of a `CAPAStatusEnum` member. -/
def CAPAStatusEnum.value : CAPAStatusEnum → String
  | .open_ => "OPEN"
  | .in_progress => "IN PROGRESS"
  | .pending_verification => "PENDING VERIFICATION"
  | .closed => "CLOSED"
  | .sent_back => "SENT BACK"

/-- The workflow-relevant columns of `models.CAPA`. -/
structure CAPA where
  id : Nat
  capa_code : String
  status : CAPAStatusEnum
  assigned_to : Option Nat
  assigned_by : Nat
  due_date : Option Int
  started_date : Option Int
  completed_date : Option Int
  closed_date : Option Int
  action_taken : Option String
  completion_notes : Option String
  evidence_files : List String
  updated_at : Option Int
  deleted_at : Option Int
deriving DecidableEq, Repr

/-- `models.CAPAHistory` rows, in insertion order; `data` models the JSON
`{"previous_assignee": ..., "new_assignee": ...}` payload of `assign_capa`. -/
structure CAPAHistory where
  capa_id : Nat
  action : String
  performed_by_id : Nat
  previous_status : Option String
  new_status : Option String
  comments : Option String
  data : Option (Option Nat × Nat)
deriving DecidableEq, Repr

/-- The tables touched by `services/capaservices.py`. -/
structure CapaDB where
  capas : List CAPA
  history : List CAPAHistory
  employees : List Employee
deriving DecidableEq, Repr

/-- Models `session.query(CAPA).filter(CAPA.id == capa_id,
CAPA.deleted_at.is_(None)).first()`. -/
def findCapa (capas : List CAPA) (capa_id : Nat) : Option CAPA :=
  capas.find? (fun c => c.id == capa_id && c.deleted_at.isNone)

/-- Models the `start_capa_work`/`complete_capa` query, which additionally
filters on `CAPA.assigned_to == employee_id`. -/
def findCapaAssignedTo (capas : List CAPA) (capa_id : Nat) (employee_id : Nat) :
    Option CAPA :=
  capas.find? (fun c =>
    c.id == capa_id && c.deleted_at.isNone && c.assigned_to == some employee_id)

/-- Persist the mutated CAPA row. -/
def setCapa (capas : List CAPA) (c : CAPA) : List CAPA :=
  capas.map (fun x => if x.id == c.id then c else x)

/-! ## CAPA services (`services/capaservices.py`) -/

/-- `capaservices.assign_capa`.  The service checks the assignee role but
never checks `capa.status`: assignment succeeds in any state, including
`CLOSED`. -/
def assign_capa (db : CapaDB) (capa_id : Nat) (assigned_to_id : Nat)
    (assigned_by_id : Nat) (now : Int) : CapaDB × SvcOutcome CAPA :=
  match findCapa db.capas capa_id with
  | none => (db, .err "CAPA not found")
  | some capa =>
    match findEmployeeWithRole db.employees assigned_to_id "Employee" with
    | none => (db, .err "Assignee must have Employee role")
    | some assignee =>
      let previous_assignee := capa.assigned_to
      let capa := { capa with assigned_to := some assigned_to_id, updated_at := some now }
      let action := if truthyOptNat previous_assignee then "Reassigned" else "Assigned"
      let comments :=
        if truthyOptNat previous_assignee then
          let prev_name :=
            match previous_assignee with
            | some pid =>
              match findEmployee db.employees pid with
              | some prev => prev.full_name
              | none => "Employee #" ++ toString pid
            | none => "Employee #0"
          "Reassigned from " ++ prev_name ++ " to " ++ assignee.full_name
        else
          "Assigned to " ++ assignee.full_name
      let entry : CAPAHistory :=
        { capa_id := capa_id, action := action, performed_by_id := assigned_by_id
          previous_status := some capa.status.value
          new_status := some capa.status.value
          comments := some comments
          data := some (previous_assignee, assigned_to_id) }
      ({ db with capas := setCapa db.capas capa, history := db.history ++ [entry] },
        .ok capa ("CAPA " ++ lowerStr action ++ " successfully to " ++ assignee.full_name))

/-- The `work_data` / `completion_data` dict passed to the CAPA services.
`completion_date` is the raw optional ISO string: `none` models a missing
key, `some none` a provided string that fails `fromisoformat`, and
`some (some t)` a string parsing to time `t`. -/
structure CapaWorkData where
  action_taken : Option String
  completion_notes : Option String
  evidence_files : List String
  completion_date : Option (Option Int)
deriving DecidableEq, Repr

/-- `capaservices.start_capa_work`. -/
def start_capa_work (db : CapaDB) (capa_id : Nat) (employee_id : Nat)
    (work_data : CapaWorkData) (now : Int) : CapaDB × SvcOutcome CAPA :=
  match findCapaAssignedTo db.capas capa_id employee_id with
  | none => (db, .err "CAPA not found or not assigned to you")
  | some capa =>
    if capa.status ≠ CAPAStatusEnum.open_ ∧ capa.status ≠ CAPAStatusEnum.sent_back then
      (db, .err ("CAPA must be in OPEN or SENT BACK status. Current status: "
        ++ capa.status.value))
    else
      let previous_status := capa.status
      let capa := { capa with
        status := CAPAStatusEnum.in_progress
        started_date := some now
        action_taken := work_data.action_taken
        completion_notes := work_data.completion_notes
        evidence_files := work_data.evidence_files
        updated_at := some now }
      let entry : CAPAHistory :=
        { capa_id := capa_id, action := "Started Work", performed_by_id := employee_id
          previous_status := some previous_status.value
          new_status := some CAPAStatusEnum.in_progress.value
          comments := some "Work started on CAPA", data := none }
      ({ db with capas := setCapa db.capas capa, history := db.history ++ [entry] },
        .ok capa "CAPA work started successfully")

/-- `capaservices.complete_capa`. -/
def complete_capa (db : CapaDB) (capa_id : Nat) (employee_id : Nat)
    (completion_data : CapaWorkData) (now : Int) : CapaDB × SvcOutcome CAPA :=
  match findCapaAssignedTo db.capas capa_id employee_id with
  | none => (db, .err "CAPA not found or not assigned to you")
  | some capa =>
    if capa.status ≠ CAPAStatusEnum.in_progress then
      (db, .err ("CAPA must be IN PROGRESS. Current status: " ++ capa.status.value))
    else
      match completion_data.completion_date with
      | some none =>
        (db, .err "Invalid completion_date format. Use ISO format (YYYY-MM-DD)")
      | completion_date =>
        let parsed : Option Int :=
          match completion_date with
          | some (some t) => some t
          | _ => none
        let previous_status := capa.status
        let capa := { capa with
          status := CAPAStatusEnum.pending_verification
          completed_date := some (parsed.getD now)
          action_taken := completion_data.action_taken
          completion_notes := completion_data.completion_notes
          evidence_files := completion_data.evidence_files
          updated_at := some now }
        let entry : CAPAHistory :=
          { capa_id := capa_id, action := "Completed", performed_by_id := employee_id
            previous_status := some previous_status.value
            new_status := some CAPAStatusEnum.pending_verification.value
            comments := some "CAPA marked as completed and sent for review", data := none }
        ({ db with capas := setCapa db.capas capa, history := db.history ++ [entry] },
          .ok capa "CAPA completed successfully and sent for review")

/-- `capaservices.close_capa`. -/
def close_capa (db : CapaDB) (capa_id : Nat) (admin_id : Nat) (now : Int) :
    CapaDB × SvcOutcome CAPA :=
  match findCapa db.capas capa_id with
  | none => (db, .err "CAPA not found")
  | some capa =>
    if capa.status ≠ CAPAStatusEnum.pending_verification then
      (db, .err ("CAPA must be PENDING VERIFICATION. Current status: "
        ++ capa.status.value))
    else
      let previous_status := capa.status
      let capa := { capa with
        status := CAPAStatusEnum.closed
        closed_date := some now
        updated_at := some now }
      let entry : CAPAHistory :=
        { capa_id := capa_id, action := "Closed", performed_by_id := admin_id
          previous_status := some previous_status.value
          new_status := some CAPAStatusEnum.closed.value
          comments := some "CAPA verified and closed by admin", data := none }
      ({ db with capas := setCapa db.capas capa, history := db.history ++ [entry] },
        .ok capa "CAPA closed successfully")

/-- `capaservices.send_back_capa`.  `if not capa.assigned_to` follows Python
truthiness: both `None` and `0` are rejected. -/
def send_back_capa (db : CapaDB) (capa_id : Nat) (admin_id : Nat)
    (comments : Option String) (now : Int) : CapaDB × SvcOutcome CAPA :=
  match findCapa db.capas capa_id with
  | none => (db, .err "CAPA not found")
  | some capa =>
    if capa.status ≠ CAPAStatusEnum.pending_verification then
      (db, .err ("CAPA must be PENDING VERIFICATION. Current status: "
        ++ capa.status.value))
    else if ¬ truthyOptNat capa.assigned_to then
      (db, .err "CAPA has no assigned employee to send back to")
    else
      let previous_status := capa.status
      let capa := { capa with
        status := CAPAStatusEnum.sent_back
        updated_at := some now }
      let commentText :=
        match comments with
        | some c => if c = "" then "CAPA sent back for revision" else c
        | none => "CAPA sent back for revision"
      let entry : CAPAHistory :=
        { capa_id := capa_id, action := "Sent Back", performed_by_id := admin_id
          previous_status := some previous_status.value
          new_status := some CAPAStatusEnum.sent_back.value
          comments := some commentText, data := none }
      ({ db with capas := setCapa db.capas capa, history := db.history ++ [entry] },
        .ok capa "CAPA sent back successfully")

/-! ## Change-control model (enum values from the
`create_change_control_tables` migration) -/

/-- `models.ChangeStatusEnum` (values `Submitted`, `Reviewed`, `Approved`,
`Rejected`). -/
inductive ChangeStatusEnum where
  | submitted
  | reviewed
  | approved
  | rejected
deriving DecidableEq, Repr

/-- The workflow-relevant columns of `models.ChangeControl`: `reviewer_id`
and `approver_id` are fixed at creation. -/
structure ChangeControl where
  id : Nat
  status : ChangeStatusEnum
  reviewer_id : Nat
  approver_id : Nat
  requester_id : Nat
  review_comments : Option String
  approval_comments : Option String
  review_date : Option Int
  approval_date : Option Int
  updated_at : Option Int
deriving DecidableEq, Repr

/-- `models.ChangeControlHistory` rows, in insertion order. -/
structure ChangeControlHistory where
  change_control_id : Nat
  action : String
  performed_by_id : Nat
  comments : String
  previous_status : Option ChangeStatusEnum
  new_status : ChangeStatusEnum
deriving DecidableEq, Repr

/-- The tables touched by `services/changecontrolservice.py`. -/
structure ChangeDB where
  ccs : List ChangeControl
  history : List ChangeControlHistory
deriving DecidableEq, Repr

/-- Models `session.query(ChangeControl).filter(ChangeControl.id ==
change_control_id).first()` (no deleted filter in the source). -/
def findChangeControl (ccs : List ChangeControl) (change_control_id : Nat) :
    Option ChangeControl :=
  ccs.find? (fun cc => cc.id == change_control_id)

/-- Persist the mutated change-control row. -/
def setChangeControl (ccs : List ChangeControl) (cc : ChangeControl) :
    List ChangeControl :=
  ccs.map (fun x => if x.id == cc.id then cc else x)

/-! ## Change-control services (`services/changecontrolservice.py`) -/

/-- `changecontrolservice.review_change_control`.  Guard order follows the
source: not-found, then reviewer identity, then status, then action. -/
def review_change_control (db : ChangeDB) (change_control_id : Nat)
    (reviewer_id : Nat) (action : String) (comments : String) (now : Int) :
    ChangeDB × Bool × String :=
  match findChangeControl db.ccs change_control_id with
  | none => (db, false, "Change control not found")
  | some change_control =>
    if change_control.reviewer_id ≠ reviewer_id then
      (db, false, "You are not authorized to review this change control")
    else if change_control.status ≠ ChangeStatusEnum.submitted then
      (db, false, "Change control is not in submitted status for review")
    else if lowerStr action = "approve" then
      let previous_status := change_control.status
      let change_control := { change_control with
        review_comments := some comments
        review_date := some now
        status := ChangeStatusEnum.reviewed
        updated_at := some now }
      let entry : ChangeControlHistory :=
        { change_control_id := change_control.id, action := "Reviewed"
          performed_by_id := reviewer_id, comments := comments
          previous_status := some previous_status
          new_status := ChangeStatusEnum.reviewed }
      ({ ccs := setChangeControl db.ccs change_control
         history := db.history ++ [entry] },
        true, "Change control reviewed successfully")
    else if lowerStr action = "reject" then
      let previous_status := change_control.status
      let change_control := { change_control with
        review_comments := some comments
        review_date := some now
        status := ChangeStatusEnum.rejected
        updated_at := some now }
      let entry : ChangeControlHistory :=
        { change_control_id := change_control.id, action := "Rejected"
          performed_by_id := reviewer_id, comments := comments
          previous_status := some previous_status
          new_status := ChangeStatusEnum.rejected }
      ({ ccs := setChangeControl db.ccs change_control
         history := db.history ++ [entry] },
        true, "Change control rejected successfully")
    else
      (db, false, "Invalid action. Use approve or reject")

/-- `changecontrolservice.approve_change_control`.  Guard order follows the
source: not-found, then approver identity, then status, then action. -/
def approve_change_control (db : ChangeDB) (change_control_id : Nat)
    (approver_id : Nat) (action : String) (comments : String) (now : Int) :
    ChangeDB × Bool × String :=
  match findChangeControl db.ccs change_control_id with
  | none => (db, false, "Change control not found")
  | some change_control =>
    if change_control.approver_id ≠ approver_id then
      (db, false, "You are not authorized to approve this change control")
    else if change_control.status ≠ ChangeStatusEnum.reviewed then
      (db, false, "Change control must be reviewed before approval")
    else if lowerStr action = "approve" then
      let previous_status := change_control.status
      let change_control := { change_control with
        approval_comments := some comments
        approval_date := some now
        status := ChangeStatusEnum.approved
        updated_at := some now }
      let entry : ChangeControlHistory :=
        { change_control_id := change_control.id, action := "Approved"
          performed_by_id := approver_id, comments := comments
          previous_status := some previous_status
          new_status := ChangeStatusEnum.approved }
      ({ ccs := setChangeControl db.ccs change_control
         history := db.history ++ [entry] },
        true, "Change control approved successfully")
    else if lowerStr action = "reject" then
      let previous_status := change_control.status
      let change_control := { change_control with
        approval_comments := some comments
        approval_date := some now
        status := ChangeStatusEnum.rejected
        updated_at := some now }
      let entry : ChangeControlHistory :=
        { change_control_id := change_control.id, action := "Rejected"
          performed_by_id := approver_id, comments := comments
          previous_status := some previous_status
          new_status := ChangeStatusEnum.rejected }
      ({ ccs := setChangeControl db.ccs change_control
         history := db.history ++ [entry] },
        true, "Change control rejected successfully")
    else
      (db, false, "Invalid action. Use approve or reject")

/-! ## Notification sweep (`services/notificationsservice.py`) -/

/-- `models.TrainingAssignmentStatusEnum`. -/
inductive TrainingAssignmentStatusEnum where
  | assigned
  | in_progress
  | completed
  | cancelled
deriving DecidableEq, Repr

/-- The sweep-relevant columns of `models.TrainingAssignment`, with the
joined training title. -/
structure TrainingAssignment where
  employee_id : Nat
  status : TrainingAssignmentStatusEnum
  due_date : Option Int
  assigned_date : Option Int
  deleted_at : Option Int
  training_title : String
deriving DecidableEq, Repr

/-- One `{title, message, time_ago}` dict produced by the sweep. -/
structure Alert where
  title : String
  message : String
  time_ago : String
deriving DecidableEq, Repr

/-- The tables read by `get_notifications`. -/
structure NotifDB where
  assignments : List TrainingAssignment
  capas : List CAPA
  docs : List Document
deriving DecidableEq, Repr

/-- Python `x or y` on two optional datetimes (a datetime object is always
truthy). -/
def pyOrOpt (x y : Option Int) : Option Int :=
  match x with
  | some t => some t
  | none => y

/-- `notificationsservice._relative_time`, with `utcnow()` passed
explicitly.  `Int.fdiv`/`Int.emod` match the floor-based normalization of
Python `timedelta.days`/`timedelta.seconds`. -/
def relative_time (now : Int) (dt : Option Int) : String :=
  match dt with
  | none => ""
  | some t =>
    let delta := now - t
    let days := delta.fdiv 86400
    let seconds := delta.emod 86400
    if days > 0 then
      if days = 1 then toString days ++ " day ago" else toString days ++ " days ago"
    else
      let hours := seconds.fdiv 3600
      if hours > 0 then
        if hours = 1 then toString hours ++ " hour ago"
        else toString hours ++ " hours ago"
      else
        let minutes := (seconds.emod 3600).fdiv 60
        if minutes > 0 then toString minutes ++ " min ago" else "just now"

/-- The alerts one training assignment contributes to the sweep
(`tomorrow = now + timedelta(days=1)`). -/
def trainingAlerts (now : Int) (a : TrainingAssignment) : List Alert :=
  if a.status = TrainingAssignmentStatusEnum.assigned
      ∨ a.status = TrainingAssignmentStatusEnum.in_progress then
    match a.due_date with
    | none => []
    | some due =>
      if due ≤ now + 86400 then
        [{ title := "Training Due"
           message :=
             if due > now then a.training_title ++ " training expires tomorrow"
             else a.training_title ++ " training overdue"
           time_ago := relative_time now (pyOrOpt a.due_date a.assigned_date) }]
      else []
  else []

/-- The alerts one CAPA contributes to the sweep: a pending-verification
CAPA always surfaces; an overdue alert is produced only in status `OPEN`. -/
def capaAlerts (now : Int) (c : CAPA) : List Alert :=
  if c.status = CAPAStatusEnum.pending_verification then
    [{ title := "CAPA Pending Review"
       message := c.capa_code ++ " requires action"
       time_ago := relative_time now (pyOrOpt c.completed_date c.updated_at) }]
  else if c.status = CAPAStatusEnum.open_ then
    match c.due_date with
    | none => []
    | some due =>
      if due < now then
        [{ title := "CAPA Overdue"
           message := c.capa_code ++ " requires action"
           time_ago := relative_time now (some due) }]
      else []
  else []

/-- The alerts one document contributes to the sweep.  The source compares
`str(d.status)` (which CPython renders as `"DocumentStatusEnum.<name>"` for
a `(str, Enum)` member) against bare value strings, so this branch never
fires; the comparison is embedded as written. -/
def docAlerts (now : Int) (d : Document) : List Alert :=
  if d.status.pyStr = "under_review" ∨ d.status.pyStr = "under_approval" then
    let title :=
      if d.status.pyStr = "under_review" then "Document Review"
      else "Document Approval"
    [{ title := title
       message :=
         if title = "Document Approval" then d.title ++ " pending approval"
         else d.title ++ " pending review"
       time_ago := relative_time now (pyOrOpt d.updated_at d.created_at) }]
  else []

/-- `notificationsservice.get_notifications`: pure aggregation of the three
scans, in source order (trainings, then CAPAs, then documents). -/
def get_notifications (db : NotifDB) (now : Int) (current_user_id : Option Nat) :
    List Alert :=
  let q := db.assignments.filter (fun a => a.deleted_at.isNone)
  let assignments :=
    if truthyOptNat current_user_id then
      q.filter (fun a => some a.employee_id == current_user_id)
    else q
  (assignments.map (trainingAlerts now)).flatten
    ++ ((db.capas.filter (fun c => c.deleted_at.isNone)).map (capaAlerts now)).flatten
    ++ ((db.docs.filter (fun d => d.deleted_at.isNone)).map (docAlerts now)).flatten

/-- `get_notifications` in the same state-passing form as the mutating
services: the source opens a session, runs only `query(...)` reads, never
calls `session.add`/`session.commit`, and closes the session, so the
committed tables after the call are the tables before it. -/
def get_notifications_st (db : NotifDB) (now : Int) (current_user_id : Option Nat) :
    NotifDB × List Alert :=
  (db, get_notifications db now current_user_id)

/-- The returned object of a service call, `none` on `(None, msg)` returns
and on unhandled exceptions. -/
def SvcOutcome.val? {α : Type} : SvcOutcome α → Option α
  | .ok v _ => some v
  | .err _ => none
  | .raised _ => none

/-- Did the service call return a `(None, msg)` failure? -/
def SvcOutcome.isErr {α : Type} : SvcOutcome α → Bool
  | .err _ => true
  | _ => false

/-- Did the service call return a `(obj, msg)` success? -/
def SvcOutcome.isOk {α : Type} : SvcOutcome α → Bool
  | .ok _ _ => true
  | _ => false

/-- The version string of a returned document, when the call succeeded. -/
def SvcOutcome.version? : SvcOutcome Document → Option String
  | .ok d _ => some d.version
  | _ => none

/-! ## Claim theorems -/

/-- C1: Document lifecycle scenario.  For any document in state `draft` with
version `"1.0"`: `send_document_to_reviewer` moves it to `under_review` with
version `"1.1"`; `send_document_to_approver` then moves it to
`under_approval` with version still `"1.1"` and the approver assigned; an
approver rejection (`approve_document` with `approved := false`) moves it to
`rejected` with version `"2.0"`; `resubmit_rejected_document` moves it back
to `draft` with version `"1.0"`. -/
theorem document_lifecycle_scenario (d : Document) (rs : List DocumentReview)
    (sig1 sig2 sig3 : String) (rid : Option Nat) (appr_id uid res_uid : Nat)
    (t1 t2 t3 t4 : Int)
    (hstatus : d.status = DocumentStatusEnum.draft)
    (hversion : d.version = "1.0")
    (hlive : d.deleted_at = none) :
    send_document_to_reviewer ⟨[d], rs⟩ d.id sig1 rid t1 =
      (⟨[{ d with
            status := DocumentStatusEnum.under_review
            version := "1.1"
            updated_at := some t1 }],
        rs ++ [{ document_id := d.id
                 reviewer_id := rid
                 action := "sent_to_reviewer"
                 signature := sig1
                 comments := none }]⟩,
       .ok { d with
             status := DocumentStatusEnum.under_review
             version := "1.1"
             updated_at := some t1 }
          "Document sent to reviewer successfully (Version: 1.1)")
    ∧ send_document_to_approver
        ⟨[{ d with
            status := DocumentStatusEnum.under_review
            version := "1.1"
            updated_at := some t1 }],
          rs ++ [{ document_id := d.id
                   reviewer_id := rid
                   action := "sent_to_reviewer"
                   signature := sig1
                   comments := none }]⟩ d.id sig2 appr_id t2 =
      (⟨[{ d with
            status := DocumentStatusEnum.under_approval
            version := "1.1"
            assigned_approver_id := some appr_id
            updated_at := some t2 }],
        rs ++ [{ document_id := d.id
                 reviewer_id := rid
                 action := "sent_to_reviewer"
                 signature := sig1
                 comments := none },
               { document_id := d.id
                 reviewer_id := some appr_id
                 action := "sent_to_approver"
                 signature := sig2
                 comments := none }]⟩,
       .ok { d with
             status := DocumentStatusEnum.under_approval
             version := "1.1"
             assigned_approver_id := some appr_id
             updated_at := some t2 }
          "Document sent to approver successfully (Version: 1.1)")
    ∧ approve_document
        ⟨[{ d with
            status := DocumentStatusEnum.under_approval
            version := "1.1"
            assigned_approver_id := some appr_id
            updated_at := some t2 }],
          rs ++ [{ document_id := d.id
                   reviewer_id := rid
                   action := "sent_to_reviewer"
                   signature := sig1
                   comments := none },
                 { document_id := d.id
                   reviewer_id := some appr_id
                   action := "sent_to_approver"
                   signature := sig2
                   comments := none }]⟩ d.id sig3 false uid none t3 =
      (⟨[{ d with
            status := DocumentStatusEnum.rejected
            version := "2.0"
            assigned_approver_id := some appr_id
            updated_at := some t3 }],
        rs ++ [{ document_id := d.id
                 reviewer_id := rid
                 action := "sent_to_reviewer"
                 signature := sig1
                 comments := none },
               { document_id := d.id
                 reviewer_id := some appr_id
                 action := "sent_to_approver"
                 signature := sig2
                 comments := none },
               { document_id := d.id
                 reviewer_id := some uid
                 action := "reject"
                 signature := sig3
                 comments := none }]⟩,
       .ok { d with
             status := DocumentStatusEnum.rejected
             version := "2.0"
             assigned_approver_id := some appr_id
             updated_at := some t3 }
          "Document rejected and version updated to 2.0")
    ∧ resubmit_rejected_document
        ⟨[{ d with
            status := DocumentStatusEnum.rejected
            version := "2.0"
            assigned_approver_id := some appr_id
            updated_at := some t3 }],
          rs ++ [{ document_id := d.id
                   reviewer_id := rid
                   action := "sent_to_reviewer"
                   signature := sig1
                   comments := none },
                 { document_id := d.id
                   reviewer_id := some appr_id
                   action := "sent_to_approver"
                   signature := sig2
                   comments := none },
                 { document_id := d.id
                   reviewer_id := some uid
                   action := "reject"
                   signature := sig3
                   comments := none }]⟩ d.id res_uid t4 =
      (⟨[{ d with
            status := DocumentStatusEnum.draft
            version := "1.0"
            assigned_approver_id := some appr_id
            updated_at := some t4 }],
        rs ++ [{ document_id := d.id
                 reviewer_id := rid
                 action := "sent_to_reviewer"
                 signature := sig1
                 comments := none },
               { document_id := d.id
                 reviewer_id := some appr_id
                 action := "sent_to_approver"
                 signature := sig2
                 comments := none },
               { document_id := d.id
                 reviewer_id := some uid
                 action := "reject"
                 signature := sig3
                 comments := none },
               { document_id := d.id
                 reviewer_id := some res_uid
                 action := "resubmitted"
                 signature := ""
                 comments := some "Document resubmitted after rejection" }]⟩,
       .ok { d with
             status := DocumentStatusEnum.draft
             version := "1.0"
             assigned_approver_id := some appr_id
             updated_at := some t4 }
          "Document resubmitted successfully (Version: 1.0)") := by
  obtain ⟨i, st, v, aa, ap, ua, ca, da, ti⟩ := d
  dsimp only at hstatus hversion hlive
  subst hstatus hversion hlive
  have hb : bump_major "1.1" = some "2.0" := rfl
  refine ⟨?_, ?_, ?_, ?_⟩
  · simp [send_document_to_reviewer, findDocument, setDocument, List.find?]
  · simp [send_document_to_approver, findDocument, setDocument, List.find?]
  · simp [approve_document, findDocument, setDocument, List.find?, hb]
  · simp [resubmit_rejected_document, findDocument, setDocument, List.find?]

/-- Witness for C1: the final resubmit step of the scenario, instantiated on
a concrete document, as produced by `document_lifecycle_scenario`. -/
theorem document_lifecycle_scenario_witness :
    resubmit_rejected_document
      ⟨[{ id := 1
          status := DocumentStatusEnum.rejected
          version := "2.0"
          assigned_approver_id := some 3
          approved_at := none
          updated_at := some 30
          created_at := none
          deleted_at := none
          title := "SOP-1" }],
        [{ document_id := 1
           reviewer_id := some 2
           action := "sent_to_reviewer"
           signature := "sig-a"
           comments := none },
         { document_id := 1
           reviewer_id := some 3
           action := "sent_to_approver"
           signature := "sig-b"
           comments := none },
         { document_id := 1
           reviewer_id := some 4
           action := "reject"
           signature := "sig-c"
           comments := none }]⟩ 1 5 40 =
    (⟨[{ id := 1
         status := DocumentStatusEnum.draft
         version := "1.0"
         assigned_approver_id := some 3
         approved_at := none
         updated_at := some 40
         created_at := none
         deleted_at := none
         title := "SOP-1" }],
      [{ document_id := 1
         reviewer_id := some 2
         action := "sent_to_reviewer"
         signature := "sig-a"
         comments := none },
       { document_id := 1
         reviewer_id := some 3
         action := "sent_to_approver"
         signature := "sig-b"
         comments := none },
       { document_id := 1
         reviewer_id := some 4
         action := "reject"
         signature := "sig-c"
         comments := none },
       { document_id := 1
         reviewer_id := some 5
         action := "resubmitted"
         signature := ""
         comments := some "Document resubmitted after rejection" }]⟩,
     .ok { id := 1
           status := DocumentStatusEnum.draft
           version := "1.0"
           assigned_approver_id := some 3
           approved_at := none
           updated_at := some 40
           created_at := none
           deleted_at := none
           title := "SOP-1" }
        "Document resubmitted successfully (Version: 1.0)") :=
  (document_lifecycle_scenario
    { id := 1
      status := DocumentStatusEnum.draft
      version := "1.0"
      assigned_approver_id := none
      approved_at := none
      updated_at := none
      created_at := none
      deleted_at := none
      title := "SOP-1" }
    [] "sig-a" "sig-b" "sig-c" (some 2) 3 4 5 10 20 30 40 rfl rfl rfl).2.2.2

/-- C2 (amended): `send_document_to_approver` performs no role lookup at
all — for any document currently `under_review` it succeeds for every
`approver_id`, setting `assigned_approver_id` to that id; and the code
retains the after-the-fact repair `fix_document_status`, which moves an
`under_approval` document with no assigned approver back to
`under_review`. -/
theorem send_to_approver_no_role_guard :
    (∀ (db : DocDB) (document_id : Nat) (sig : String) (approver_id : Nat)
        (now : Int) (d : Document),
      findDocument db.docs document_id = some d →
      d.status = DocumentStatusEnum.under_review →
      send_document_to_approver db document_id sig approver_id now =
        (⟨setDocument db.docs
            { d with
              status := DocumentStatusEnum.under_approval
              assigned_approver_id := some approver_id
              version := "1.1"
              updated_at := some now },
          db.reviews ++ [{ document_id := document_id
                           reviewer_id := some approver_id
                           action := "sent_to_approver"
                           signature := sig
                           comments := none }]⟩,
         .ok { d with
               status := DocumentStatusEnum.under_approval
               assigned_approver_id := some approver_id
               version := "1.1"
               updated_at := some now }
            "Document sent to approver successfully (Version: 1.1)"))
    ∧ (∀ (db : DocDB) (document_id : Nat) (now : Int) (d : Document),
      findDocument db.docs document_id = some d →
      d.status = DocumentStatusEnum.under_approval →
      d.assigned_approver_id = none →
      fix_document_status db document_id now =
        (⟨setDocument db.docs
            { d with
              status := DocumentStatusEnum.under_review
              updated_at := some now },
          db.reviews⟩,
         .ok { d with
               status := DocumentStatusEnum.under_review
               updated_at := some now }
            "Document status fixed - moved back to under_review")) := by
  constructor
  · intro db document_id sig approver_id now d hfind hstatus
    simp [send_document_to_approver, hfind, hstatus]
  · intro db document_id now d hfind hstatus happr
    simp [fix_document_status, hfind, hstatus, happr]

/-- Witness for C2 (amended), on a concrete one-document database. -/
theorem send_to_approver_no_role_guard_witness :
    send_document_to_approver
      ⟨[{ id := 1
          status := DocumentStatusEnum.under_review
          version := "1.1"
          assigned_approver_id := none
          approved_at := none
          updated_at := none
          created_at := none
          deleted_at := none
          title := "SOP-2" }], []⟩ 1 "sig" 5 10 =
      (⟨[{ id := 1
           status := DocumentStatusEnum.under_approval
           version := "1.1"
           assigned_approver_id := some 5
           approved_at := none
           updated_at := some 10
           created_at := none
           deleted_at := none
           title := "SOP-2" }],
        [{ document_id := 1
           reviewer_id := some 5
           action := "sent_to_approver"
           signature := "sig"
           comments := none }]⟩,
       .ok { id := 1
             status := DocumentStatusEnum.under_approval
             version := "1.1"
             assigned_approver_id := some 5
             approved_at := none
             updated_at := some 10
             created_at := none
             deleted_at := none
             title := "SOP-2" }
          "Document sent to approver successfully (Version: 1.1)")
    ∧ fix_document_status
      ⟨[{ id := 2
          status := DocumentStatusEnum.under_approval
          version := "1.1"
          assigned_approver_id := none
          approved_at := none
          updated_at := none
          created_at := none
          deleted_at := none
          title := "SOP-3" }], []⟩ 2 11 =
      (⟨[{ id := 2
           status := DocumentStatusEnum.under_review
           version := "1.1"
           assigned_approver_id := none
           approved_at := none
           updated_at := some 11
           created_at := none
           deleted_at := none
           title := "SOP-3" }], []⟩,
       .ok { id := 2
             status := DocumentStatusEnum.under_review
             version := "1.1"
             assigned_approver_id := none
             approved_at := none
             updated_at := some 11
             created_at := none
             deleted_at := none
             title := "SOP-3" }
          "Document status fixed - moved back to under_review") :=
  ⟨send_to_approver_no_role_guard.1 _ 1 "sig" 5 10
      { id := 1
        status := DocumentStatusEnum.under_review
        version := "1.1"
        assigned_approver_id := none
        approved_at := none
        updated_at := none
        created_at := none
        deleted_at := none
        title := "SOP-2" } rfl rfl,
   send_to_approver_no_role_guard.2 _ 2 11
      { id := 2
        status := DocumentStatusEnum.under_approval
        version := "1.1"
        assigned_approver_id := none
        approved_at := none
        updated_at := none
        created_at := none
        deleted_at := none
        title := "SOP-3" } rfl rfl rfl⟩

/-- Counterexample to C2 as stated: the assign-approver transition succeeds
even though the named actor (id 5) holds the `Employee` role, not the
`Approver` role, in the actor directory. -/
theorem send_to_approver_accepts_non_approver :
    (findEmployeeWithRole [{ id := 5
                             full_name := "Eve"
                             role := "Employee"
                             deleted_at := none }] 5 "Approver" = none)
    ∧ ((send_document_to_approver
        ⟨[{ id := 1
            status := DocumentStatusEnum.under_review
            version := "1.1"
            assigned_approver_id := none
            approved_at := none
            updated_at := none
            created_at := none
            deleted_at := none
            title := "SOP-2" }], []⟩ 1 "sig" 5 10).2).isOk = true := by
  constructor
  · decide
  · decide

/-- C3 (amended): a CAPA in the terminal state `CLOSED` is rejected by every
state-changing operation (`start_capa_work`, `complete_capa`, `close_capa`,
`send_back_capa`), each leaving the tables unchanged; but `assign_capa`
checks no status at all and succeeds on a `CLOSED` CAPA (changing only the
assignment, never the state, which always remains in the
`CAPAStatusEnum` state set). -/
theorem capa_closed_accepts_only_assign
    (c : CAPA) (hist : List CAPAHistory) (es : List Employee)
    (hstatus : c.status = CAPAStatusEnum.closed)
    (hdel : c.deleted_at = none) :
    (∀ (emp : Nat) (wd : CapaWorkData) (now : Int),
      (start_capa_work ⟨[c], hist, es⟩ c.id emp wd now).1 = ⟨[c], hist, es⟩
      ∧ ((start_capa_work ⟨[c], hist, es⟩ c.id emp wd now).2).isErr = true)
    ∧ (∀ (emp : Nat) (cd : CapaWorkData) (now : Int),
      (complete_capa ⟨[c], hist, es⟩ c.id emp cd now).1 = ⟨[c], hist, es⟩
      ∧ ((complete_capa ⟨[c], hist, es⟩ c.id emp cd now).2).isErr = true)
    ∧ (∀ (admin : Nat) (now : Int),
      close_capa ⟨[c], hist, es⟩ c.id admin now =
        (⟨[c], hist, es⟩,
         .err "CAPA must be PENDING VERIFICATION. Current status: CLOSED"))
    ∧ (∀ (admin : Nat) (comments : Option String) (now : Int),
      send_back_capa ⟨[c], hist, es⟩ c.id admin comments now =
        (⟨[c], hist, es⟩,
         .err "CAPA must be PENDING VERIFICATION. Current status: CLOSED"))
    ∧ (∀ (assigned_to_id admin : Nat) (now : Int) (a : Employee),
      findEmployeeWithRole es assigned_to_id "Employee" = some a →
      ((assign_capa ⟨[c], hist, es⟩ c.id assigned_to_id admin now).2).val? =
        some { c with assigned_to := some assigned_to_id, updated_at := some now }) := by
  refine ⟨?_, ?_, ?_, ?_, ?_⟩
  · intro emp wd now
    by_cases hc : c.assigned_to = some emp
    · have hb : (c.assigned_to == some emp) = true := by simp [hc]
      constructor <;>
        simp [start_capa_work, findCapaAssignedTo, List.find?, hdel, hstatus, hb,
          SvcOutcome.isErr]
    · have hb : (c.assigned_to == some emp) = false := by simp [hc]
      constructor <;>
        simp [start_capa_work, findCapaAssignedTo, List.find?, hdel, hstatus, hb,
          SvcOutcome.isErr]
  · intro emp cd now
    by_cases hc : c.assigned_to = some emp
    · have hb : (c.assigned_to == some emp) = true := by simp [hc]
      constructor <;>
        simp [complete_capa, findCapaAssignedTo, List.find?, hdel, hstatus, hb,
          SvcOutcome.isErr]
    · have hb : (c.assigned_to == some emp) = false := by simp [hc]
      constructor <;>
        simp [complete_capa, findCapaAssignedTo, List.find?, hdel, hstatus, hb,
          SvcOutcome.isErr]
  · intro admin now
    simp [close_capa, findCapa, List.find?, hdel, hstatus, CAPAStatusEnum.value]
  · intro admin comments now
    simp [send_back_capa, findCapa, List.find?, hdel, hstatus, CAPAStatusEnum.value]
  · intro assigned_to_id admin now a hfind
    simp [assign_capa, findCapa, List.find?, hdel, hfind, SvcOutcome.val?]

/-- Witness for C3 (amended), on a concrete closed CAPA and a concrete
actor directory. -/
theorem capa_closed_accepts_only_assign_witness :
    (close_capa
      ⟨[{ id := 1
          capa_code := "CAPA-1"
          status := CAPAStatusEnum.closed
          assigned_to := some 5
          assigned_by := 9
          due_date := none
          started_date := none
          completed_date := none
          closed_date := some 90
          action_taken := none
          completion_notes := none
          evidence_files := []
          updated_at := none
          deleted_at := none }], [],
        [{ id := 5, full_name := "Eva", role := "Employee", deleted_at := none }]⟩
      1 9 100 =
      (⟨[{ id := 1
           capa_code := "CAPA-1"
           status := CAPAStatusEnum.closed
           assigned_to := some 5
           assigned_by := 9
           due_date := none
           started_date := none
           completed_date := none
           closed_date := some 90
           action_taken := none
           completion_notes := none
           evidence_files := []
           updated_at := none
           deleted_at := none }], [],
        [{ id := 5, full_name := "Eva", role := "Employee", deleted_at := none }]⟩,
       .err "CAPA must be PENDING VERIFICATION. Current status: CLOSED"))
    ∧ ((assign_capa
      ⟨[{ id := 1
          capa_code := "CAPA-1"
          status := CAPAStatusEnum.closed
          assigned_to := some 5
          assigned_by := 9
          due_date := none
          started_date := none
          completed_date := none
          closed_date := some 90
          action_taken := none
          completion_notes := none
          evidence_files := []
          updated_at := none
          deleted_at := none }], [],
        [{ id := 5, full_name := "Eva", role := "Employee", deleted_at := none }]⟩
      1 5 9 100).2).val? =
      some { id := 1
             capa_code := "CAPA-1"
             status := CAPAStatusEnum.closed
             assigned_to := some 5
             assigned_by := 9
             due_date := none
             started_date := none
             completed_date := none
             closed_date := some 90
             action_taken := none
             completion_notes := none
             evidence_files := []
             updated_at := some 100
             deleted_at := none } :=
  ⟨(capa_closed_accepts_only_assign
      { id := 1
        capa_code := "CAPA-1"
        status := CAPAStatusEnum.closed
        assigned_to := some 5
        assigned_by := 9
        due_date := none
        started_date := none
        completed_date := none
        closed_date := some 90
        action_taken := none
        completion_notes := none
        evidence_files := []
        updated_at := none
        deleted_at := none } []
      [{ id := 5, full_name := "Eva", role := "Employee", deleted_at := none }]
      rfl rfl).2.2.1 9 100,
   (capa_closed_accepts_only_assign
      { id := 1
        capa_code := "CAPA-1"
        status := CAPAStatusEnum.closed
        assigned_to := some 5
        assigned_by := 9
        due_date := none
        started_date := none
        completed_date := none
        closed_date := some 90
        action_taken := none
        completion_notes := none
        evidence_files := []
        updated_at := none
        deleted_at := none } []
      [{ id := 5, full_name := "Eva", role := "Employee", deleted_at := none }]
      rfl rfl).2.2.2.2 5 9 100
      { id := 5, full_name := "Eva", role := "Employee", deleted_at := none } rfl⟩

/-- Counterexample to C3 as stated: `assign_capa` does not fail on a CAPA
whose state is `CLOSED` — it succeeds as long as the assignee holds the
`Employee` role. -/
theorem assign_capa_succeeds_on_closed :
    ((assign_capa
      ⟨[{ id := 1
          capa_code := "CAPA-1"
          status := CAPAStatusEnum.closed
          assigned_to := none
          assigned_by := 9
          due_date := none
          started_date := none
          completed_date := none
          closed_date := some 90
          action_taken := none
          completion_notes := none
          evidence_files := []
          updated_at := none
          deleted_at := none }], [],
        [{ id := 5, full_name := "Eva", role := "Employee", deleted_at := none }]⟩
      1 5 9 100).2).isOk = true := by
  decide

/-- C4 (amended): in the change-control services the actor guard is
evaluated before the state guard: when the caller is not the bound
reviewer/approver AND the instance is not in the required state, the call
returns the authorization error (`Forbidden`-style), not the state error,
and leaves the tables unchanged. -/
theorem change_control_actor_guard_first :
    (∀ (db : ChangeDB) (ccid actor : Nat) (action comments : String) (now : Int)
        (cc : ChangeControl),
      findChangeControl db.ccs ccid = some cc →
      cc.reviewer_id ≠ actor →
      cc.status ≠ ChangeStatusEnum.submitted →
      review_change_control db ccid actor action comments now =
        (db, false, "You are not authorized to review this change control"))
    ∧ (∀ (db : ChangeDB) (ccid actor : Nat) (action comments : String) (now : Int)
        (cc : ChangeControl),
      findChangeControl db.ccs ccid = some cc →
      cc.approver_id ≠ actor →
      cc.status ≠ ChangeStatusEnum.reviewed →
      approve_change_control db ccid actor action comments now =
        (db, false, "You are not authorized to approve this change control")) := by
  constructor
  · intro db ccid actor action comments now cc hfind hactor _hstate
    simp [review_change_control, hfind, hactor]
  · intro db ccid actor action comments now cc hfind hactor _hstate
    simp [approve_change_control, hfind, hactor]

/-- Witness for C4 (amended): a concrete change control in status
`Approved` with reviewer 2 and approver 3, called by actor 7. -/
theorem change_control_actor_guard_first_witness :
    review_change_control
      ⟨[{ id := 1
          status := ChangeStatusEnum.approved
          reviewer_id := 2
          approver_id := 3
          requester_id := 4
          review_comments := none
          approval_comments := none
          review_date := none
          approval_date := none
          updated_at := none }], []⟩ 1 7 "approve" "c" 50 =
      (⟨[{ id := 1
           status := ChangeStatusEnum.approved
           reviewer_id := 2
           approver_id := 3
           requester_id := 4
           review_comments := none
           approval_comments := none
           review_date := none
           approval_date := none
           updated_at := none }], []⟩,
       false, "You are not authorized to review this change control")
    ∧ approve_change_control
      ⟨[{ id := 1
          status := ChangeStatusEnum.submitted
          reviewer_id := 2
          approver_id := 3
          requester_id := 4
          review_comments := none
          approval_comments := none
          review_date := none
          approval_date := none
          updated_at := none }], []⟩ 1 7 "approve" "c" 50 =
      (⟨[{ id := 1
           status := ChangeStatusEnum.submitted
           reviewer_id := 2
           approver_id := 3
           requester_id := 4
           review_comments := none
           approval_comments := none
           review_date := none
           approval_date := none
           updated_at := none }], []⟩,
       false, "You are not authorized to approve this change control") :=
  ⟨change_control_actor_guard_first.1 _ 1 7 "approve" "c" 50
      { id := 1
        status := ChangeStatusEnum.approved
        reviewer_id := 2
        approver_id := 3
        requester_id := 4
        review_comments := none
        approval_comments := none
        review_date := none
        approval_date := none
        updated_at := none } rfl (by decide) (by decide),
   change_control_actor_guard_first.2 _ 1 7 "approve" "c" 50
      { id := 1
        status := ChangeStatusEnum.submitted
        reviewer_id := 2
        approver_id := 3
        requester_id := 4
        review_comments := none
        approval_comments := none
        review_date := none
        approval_date := none
        updated_at := none } rfl (by decide) (by decide)⟩

/-- Counterexample to C4 as stated: on an instance that is both in the
wrong state (`Approved`, not `Submitted`) and called by the wrong actor
(7, not the bound reviewer 2), `review_change_control` returns the actor
error, not the state error. -/
theorem change_control_state_error_not_first :
    (review_change_control
      ⟨[{ id := 1
          status := ChangeStatusEnum.approved
          reviewer_id := 2
          approver_id := 3
          requester_id := 4
          review_comments := none
          approval_comments := none
          review_date := none
          approval_date := none
          updated_at := none }], []⟩ 1 7 "approve" "c" 50).2 =
      (false, "You are not authorized to review this change control")
    ∧ (false, "You are not authorized to review this change control").2 ≠
      "Change control is not in submitted status for review" := by
  constructor
  · decide
  · decide

/-- C5: CAPA lifecycle scenario.  For a CAPA assigned to employee `emp`
(a real employee id, hence nonzero): `start_capa_work` by `emp` from `OPEN`
moves it to `IN PROGRESS`; `complete_capa` by `emp` from `IN PROGRESS`
moves it to `PENDING VERIFICATION`, stamping `completed_date`;
`send_back_capa` by an admin from `PENDING VERIFICATION` (with
`assigned_to` still set) moves it to `SENT BACK`; `start_capa_work` by
`emp` from `SENT BACK` moves it to `IN PROGRESS` again.  Each transition
fails — with the tables unchanged — when called by an actor other than the
assigned employee (`start_capa_work`/`complete_capa`) or from a state
other than the listed source state. -/
theorem capa_lifecycle_scenario
    (c : CAPA) (hist : List CAPAHistory) (es : List Employee)
    (emp admin : Nat) (wd cd wd2 : CapaWorkData) (t1 t2 t3 t4 : Int)
    (hstatus : c.status = CAPAStatusEnum.open_)
    (hassigned : c.assigned_to = some emp)
    (hemp : emp ≠ 0)
    (hdel : c.deleted_at = none)
    (hcd : cd.completion_date = none) :
    (start_capa_work ⟨[c], hist, es⟩ c.id emp wd t1).2 =
      .ok { c with
            status := CAPAStatusEnum.in_progress
            started_date := some t1
            action_taken := wd.action_taken
            completion_notes := wd.completion_notes
            evidence_files := wd.evidence_files
            updated_at := some t1 }
        "CAPA work started successfully"
    ∧ (complete_capa (start_capa_work ⟨[c], hist, es⟩ c.id emp wd t1).1
        c.id emp cd t2).2 =
      .ok { c with
            status := CAPAStatusEnum.pending_verification
            started_date := some t1
            completed_date := some t2
            action_taken := cd.action_taken
            completion_notes := cd.completion_notes
            evidence_files := cd.evidence_files
            updated_at := some t2 }
        "CAPA completed successfully and sent for review"
    ∧ (send_back_capa
        (complete_capa (start_capa_work ⟨[c], hist, es⟩ c.id emp wd t1).1
          c.id emp cd t2).1 c.id admin none t3).2 =
      .ok { c with
            status := CAPAStatusEnum.sent_back
            started_date := some t1
            completed_date := some t2
            action_taken := cd.action_taken
            completion_notes := cd.completion_notes
            evidence_files := cd.evidence_files
            updated_at := some t3 }
        "CAPA sent back successfully"
    ∧ (start_capa_work
        (send_back_capa
          (complete_capa (start_capa_work ⟨[c], hist, es⟩ c.id emp wd t1).1
            c.id emp cd t2).1 c.id admin none t3).1 c.id emp wd2 t4).2 =
      .ok { c with
            status := CAPAStatusEnum.in_progress
            started_date := some t4
            completed_date := some t2
            action_taken := wd2.action_taken
            completion_notes := wd2.completion_notes
            evidence_files := wd2.evidence_files
            updated_at := some t4 }
        "CAPA work started successfully"
    ∧ (∀ emp2 : Nat, emp2 ≠ emp →
        start_capa_work ⟨[c], hist, es⟩ c.id emp2 wd t1 =
          (⟨[c], hist, es⟩, .err "CAPA not found or not assigned to you"))
    ∧ (∀ emp2 : Nat, emp2 ≠ emp →
        (complete_capa (start_capa_work ⟨[c], hist, es⟩ c.id emp wd t1).1
          c.id emp2 cd t2).2 = .err "CAPA not found or not assigned to you")
    ∧ (complete_capa ⟨[c], hist, es⟩ c.id emp cd t2).2 =
        .err "CAPA must be IN PROGRESS. Current status: OPEN"
    ∧ (send_back_capa ⟨[c], hist, es⟩ c.id admin none t3).2 =
        .err "CAPA must be PENDING VERIFICATION. Current status: OPEN"
    ∧ (start_capa_work
        (complete_capa (start_capa_work ⟨[c], hist, es⟩ c.id emp wd t1).1
          c.id emp cd t2).1 c.id emp wd2 t3).2 =
        .err "CAPA must be in OPEN or SENT BACK status. Current status: PENDING VERIFICATION" := by
  have hb : (c.assigned_to == some emp) = true := by simp [hassigned]
  refine ⟨?_, ?_, ?_, ?_, ?_, ?_, ?_, ?_, ?_⟩
  · simp [start_capa_work, findCapaAssignedTo, List.find?, hdel, hstatus, hb]
  · simp [start_capa_work, complete_capa, findCapaAssignedTo, List.find?, setCapa,
      hdel, hstatus, hb, hcd]
  · simp [start_capa_work, complete_capa, send_back_capa, findCapa,
      findCapaAssignedTo, List.find?, setCapa, hdel, hstatus, hb, hcd, hassigned,
      truthyOptNat, hemp]
  · simp [start_capa_work, complete_capa, send_back_capa, findCapa,
      findCapaAssignedTo, List.find?, setCapa, hdel, hstatus, hb, hcd, hassigned,
      truthyOptNat, hemp]
  · intro emp2 hne
    have hb2 : (c.assigned_to == some emp2) = false := by
      simp [hassigned]
      exact Ne.symm hne
    simp [start_capa_work, findCapaAssignedTo, List.find?, hdel, hb2]
  · intro emp2 hne
    have hb2 : (c.assigned_to == some emp2) = false := by
      simp [hassigned]
      exact Ne.symm hne
    simp [start_capa_work, complete_capa, findCapaAssignedTo, List.find?, setCapa,
      hdel, hstatus, hb, hb2]
  · simp [complete_capa, findCapaAssignedTo, List.find?, hdel, hstatus, hb,
      CAPAStatusEnum.value]
  · simp [send_back_capa, findCapa, List.find?, hdel, hstatus, CAPAStatusEnum.value]
  · simp [start_capa_work, complete_capa, findCapaAssignedTo, List.find?, setCapa,
      hdel, hstatus, hb, hcd, CAPAStatusEnum.value]

/-- Witness for C5: the full scenario on a concrete CAPA assigned to
employee 5, with admin 9. -/
theorem capa_lifecycle_scenario_witness :
    (start_capa_work
      ⟨[{ id := 1
          capa_code := "CAPA-2"
          status := CAPAStatusEnum.open_
          assigned_to := some 5
          assigned_by := 9
          due_date := none
          started_date := none
          completed_date := none
          closed_date := none
          action_taken := none
          completion_notes := none
          evidence_files := []
          updated_at := none
          deleted_at := none }], [], []⟩ 1 5
      { action_taken := some "fix"
        completion_notes := none
        evidence_files := []
        completion_date := none } 10).2 =
      .ok { id := 1
            capa_code := "CAPA-2"
            status := CAPAStatusEnum.in_progress
            assigned_to := some 5
            assigned_by := 9
            due_date := none
            started_date := some 10
            completed_date := none
            closed_date := none
            action_taken := some "fix"
            completion_notes := none
            evidence_files := []
            updated_at := some 10
            deleted_at := none }
        "CAPA work started successfully"
    ∧ start_capa_work
      ⟨[{ id := 1
          capa_code := "CAPA-2"
          status := CAPAStatusEnum.open_
          assigned_to := some 5
          assigned_by := 9
          due_date := none
          started_date := none
          completed_date := none
          closed_date := none
          action_taken := none
          completion_notes := none
          evidence_files := []
          updated_at := none
          deleted_at := none }], [], []⟩ 1 6
      { action_taken := some "fix"
        completion_notes := none
        evidence_files := []
        completion_date := none } 10 =
      (⟨[{ id := 1
           capa_code := "CAPA-2"
           status := CAPAStatusEnum.open_
           assigned_to := some 5
           assigned_by := 9
           due_date := none
           started_date := none
           completed_date := none
           closed_date := none
           action_taken := none
           completion_notes := none
           evidence_files := []
           updated_at := none
           deleted_at := none }], [], []⟩,
       .err "CAPA not found or not assigned to you") := by
  have h := capa_lifecycle_scenario
    { id := 1
      capa_code := "CAPA-2"
      status := CAPAStatusEnum.open_
      assigned_to := some 5
      assigned_by := 9
      due_date := none
      started_date := none
      completed_date := none
      closed_date := none
      action_taken := none
      completion_notes := none
      evidence_files := []
      updated_at := none
      deleted_at := none } [] [] 5 9
    { action_taken := some "fix"
      completion_notes := none
      evidence_files := []
      completion_date := none }
    { action_taken := some "done"
      completion_notes := some "n"
      evidence_files := ["e.pdf"]
      completion_date := none }
    { action_taken := some "redo"
      completion_notes := none
      evidence_files := []
      completion_date := none }
    10 20 30 40 rfl rfl (by decide) rfl rfl
  exact ⟨h.1, h.2.2.2.2.1 6 (by decide)⟩

/-- C6 (amended): re-submitting an already-applied edge returns an
invalid-state error, appends no history row and applies no duplicate
effect (the tables are returned unchanged); the error message carries the
current state for the document and CAPA services, while the change-control
service returns a fixed message that does not include the current state. -/
theorem transitions_reject_second_application :
    (∀ (db : DocDB) (did : Nat) (sig : String) (approved : Bool) (rid : Nat)
        (cmts : Option String) (now : Int) (d : Document),
      findDocument db.docs did = some d →
      d.status = DocumentStatusEnum.approved →
      approve_document db did sig approved rid cmts now =
        (db, .err "Document must be under approval. Current status: approved")
      ∧ strHas "Document must be under approval. Current status: approved"
          d.status.value = true)
    ∧ (∀ (db : CapaDB) (cid emp : Nat) (cdata : CapaWorkData) (now : Int)
        (ca : CAPA),
      findCapaAssignedTo db.capas cid emp = some ca →
      ca.status = CAPAStatusEnum.pending_verification →
      complete_capa db cid emp cdata now =
        (db, .err "CAPA must be IN PROGRESS. Current status: PENDING VERIFICATION")
      ∧ strHas "CAPA must be IN PROGRESS. Current status: PENDING VERIFICATION"
          ca.status.value = true)
    ∧ (∀ (db : ChangeDB) (ccid rid : Nat) (action comments : String) (now : Int)
        (cc : ChangeControl),
      findChangeControl db.ccs ccid = some cc →
      cc.reviewer_id = rid →
      cc.status = ChangeStatusEnum.reviewed →
      review_change_control db ccid rid action comments now =
        (db, false, "Change control is not in submitted status for review")) := by
  refine ⟨?_, ?_, ?_⟩
  · intro db did sig approved rid cmts now d hfind hstatus
    constructor
    · simp [approve_document, hfind, hstatus, DocumentStatusEnum.value]
    · rw [hstatus]
      decide
  · intro db cid emp cdata now ca hfind hstatus
    constructor
    · simp [complete_capa, hfind, hstatus, CAPAStatusEnum.value]
    · rw [hstatus]
      decide
  · intro db ccid rid action comments now cc hfind hrid hstatus
    simp [review_change_control, hfind, hrid, hstatus]

/-- Witness for C6 (amended): concrete second calls on an approved
document, a pending-verification CAPA, and a reviewed change control. -/
theorem transitions_reject_second_application_witness :
    approve_document
      ⟨[{ id := 1
          status := DocumentStatusEnum.approved
          version := "1.2"
          assigned_approver_id := some 3
          approved_at := some 30
          updated_at := some 30
          created_at := none
          deleted_at := none
          title := "SOP-4" }], []⟩ 1 "sig" true 3 none 60 =
      (⟨[{ id := 1
           status := DocumentStatusEnum.approved
           version := "1.2"
           assigned_approver_id := some 3
           approved_at := some 30
           updated_at := some 30
           created_at := none
           deleted_at := none
           title := "SOP-4" }], []⟩,
       .err "Document must be under approval. Current status: approved")
    ∧ complete_capa
      ⟨[{ id := 1
          capa_code := "CAPA-3"
          status := CAPAStatusEnum.pending_verification
          assigned_to := some 5
          assigned_by := 9
          due_date := none
          started_date := some 10
          completed_date := some 20
          closed_date := none
          action_taken := some "done"
          completion_notes := none
          evidence_files := []
          updated_at := some 20
          deleted_at := none }], [], []⟩ 1 5
      { action_taken := some "done"
        completion_notes := none
        evidence_files := []
        completion_date := none } 60 =
      (⟨[{ id := 1
           capa_code := "CAPA-3"
           status := CAPAStatusEnum.pending_verification
           assigned_to := some 5
           assigned_by := 9
           due_date := none
           started_date := some 10
           completed_date := some 20
           closed_date := none
           action_taken := some "done"
           completion_notes := none
           evidence_files := []
           updated_at := some 20
           deleted_at := none }], [], []⟩,
       .err "CAPA must be IN PROGRESS. Current status: PENDING VERIFICATION")
    ∧ review_change_control
      ⟨[{ id := 1
          status := ChangeStatusEnum.reviewed
          reviewer_id := 2
          approver_id := 3
          requester_id := 4
          review_comments := some "ok"
          approval_comments := none
          review_date := some 40
          approval_date := none
          updated_at := some 40 }], []⟩ 1 2 "approve" "again" 60 =
      (⟨[{ id := 1
           status := ChangeStatusEnum.reviewed
           reviewer_id := 2
           approver_id := 3
           requester_id := 4
           review_comments := some "ok"
           approval_comments := none
           review_date := some 40
           approval_date := none
           updated_at := some 40 }], []⟩,
       false, "Change control is not in submitted status for review") :=
  ⟨(transitions_reject_second_application.1
      ⟨[{ id := 1
          status := DocumentStatusEnum.approved
          version := "1.2"
          assigned_approver_id := some 3
          approved_at := some 30
          updated_at := some 30
          created_at := none
          deleted_at := none
          title := "SOP-4" }], []⟩ 1 "sig" true 3 none 60
      { id := 1
        status := DocumentStatusEnum.approved
        version := "1.2"
        assigned_approver_id := some 3
        approved_at := some 30
        updated_at := some 30
        created_at := none
        deleted_at := none
        title := "SOP-4" } rfl rfl).1,
   (transitions_reject_second_application.2.1
      ⟨[{ id := 1
          capa_code := "CAPA-3"
          status := CAPAStatusEnum.pending_verification
          assigned_to := some 5
          assigned_by := 9
          due_date := none
          started_date := some 10
          completed_date := some 20
          closed_date := none
          action_taken := some "done"
          completion_notes := none
          evidence_files := []
          updated_at := some 20
          deleted_at := none }], [], []⟩ 1 5
      { action_taken := some "done"
        completion_notes := none
        evidence_files := []
        completion_date := none } 60
      { id := 1
        capa_code := "CAPA-3"
        status := CAPAStatusEnum.pending_verification
        assigned_to := some 5
        assigned_by := 9
        due_date := none
        started_date := some 10
        completed_date := some 20
        closed_date := none
        action_taken := some "done"
        completion_notes := none
        evidence_files := []
        updated_at := some 20
        deleted_at := none } rfl rfl).1,
   transitions_reject_second_application.2.2
      ⟨[{ id := 1
          status := ChangeStatusEnum.reviewed
          reviewer_id := 2
          approver_id := 3
          requester_id := 4
          review_comments := some "ok"
          approval_comments := none
          review_date := some 40
          approval_date := none
          updated_at := some 40 }], []⟩ 1 2 "approve" "again" 60
      { id := 1
        status := ChangeStatusEnum.reviewed
        reviewer_id := 2
        approver_id := 3
        requester_id := 4
        review_comments := some "ok"
        approval_comments := none
        review_date := some 40
        approval_date := none
        updated_at := some 40 } rfl rfl rfl⟩

/-- Counterexample to C6 as stated: the change-control invalid-state error
does not report the current state — the second call returns the same fixed
message whether the instance is in `Reviewed` or in `Approved`, and that
message contains neither state value. -/
theorem change_control_error_hides_current_state :
    (review_change_control
      ⟨[{ id := 1
          status := ChangeStatusEnum.reviewed
          reviewer_id := 2
          approver_id := 3
          requester_id := 4
          review_comments := none
          approval_comments := none
          review_date := none
          approval_date := none
          updated_at := none }], []⟩ 1 2 "approve" "c" 60).2 =
      (false, "Change control is not in submitted status for review")
    ∧ (review_change_control
      ⟨[{ id := 1
          status := ChangeStatusEnum.approved
          reviewer_id := 2
          approver_id := 3
          requester_id := 4
          review_comments := none
          approval_comments := none
          review_date := none
          approval_date := none
          updated_at := none }], []⟩ 1 2 "approve" "c" 60).2 =
      (false, "Change control is not in submitted status for review")
    ∧ strHas "Change control is not in submitted status for review" "Reviewed" = false
    ∧ strHas "Change control is not in submitted status for review" "Approved" = false := by
  refine ⟨by decide, by decide, by decide, by decide⟩

/-- C7 (amended): every version value written by a document transition
except resubmit equals the result of the pure policy function
`update_document_version` — send-to-reviewer, reviewer pass, reviewer
reject, approve, approver reject, and assign-approver all agree with it
(the services duplicate its arithmetic inline rather than calling it) —
but `resubmit_rejected_document` writes `"1.0"` unconditionally, whereas
the policy assigns the major-bumped version for a draft reached from
`rejected`. -/
theorem document_version_writes_vs_policy :
    (∀ d : Document,
      update_document_version d DocumentStatusEnum.under_review = some "1.1"
      ∧ update_document_version d DocumentStatusEnum.under_approval = some "1.1"
      ∧ update_document_version d DocumentStatusEnum.approved = some "1.2"
      ∧ update_document_version d DocumentStatusEnum.rejected = bump_major d.version)
    ∧ (∀ (db : DocDB) (did : Nat) (sig : String) (rid : Option Nat) (now : Int)
        (d : Document),
      findDocument db.docs did = some d →
      d.status = DocumentStatusEnum.draft →
      ((send_document_to_reviewer db did sig rid now).2).version? =
        update_document_version d DocumentStatusEnum.under_review)
    ∧ (∀ (db : DocDB) (did rid : Nat) (sig : String) (cmts : Option String)
        (now : Int) (d : Document),
      findDocument db.docs did = some d →
      d.status = DocumentStatusEnum.under_review →
      ((review_document_action db did rid "review" sig cmts now).2).version? =
        update_document_version d DocumentStatusEnum.under_review
      ∧ ((review_document_action db did rid "reject" sig cmts now).2).version? =
        update_document_version d DocumentStatusEnum.rejected
      ∧ ((send_document_to_approver db did sig rid now).2).version? =
        update_document_version d DocumentStatusEnum.under_approval)
    ∧ (∀ (db : DocDB) (did rid : Nat) (sig : String) (cmts : Option String)
        (now : Int) (d : Document),
      findDocument db.docs did = some d →
      d.status = DocumentStatusEnum.under_approval →
      ((approve_document db did sig true rid cmts now).2).version? =
        update_document_version d DocumentStatusEnum.approved
      ∧ ((approve_document db did sig false rid cmts now).2).version? =
        update_document_version d DocumentStatusEnum.rejected)
    ∧ (∀ (db : DocDB) (did uid : Nat) (now : Int) (d : Document),
      findDocument db.docs did = some d →
      d.status = DocumentStatusEnum.rejected →
      ((resubmit_rejected_document db did uid now).2).version? = some "1.0"
      ∧ update_document_version d DocumentStatusEnum.draft = bump_major d.version) := by
  refine ⟨?_, ?_, ?_, ?_, ?_⟩
  · intro d
    refine ⟨rfl, rfl, rfl, rfl⟩
  · intro db did sig rid now d hfind hstatus
    simp [send_document_to_reviewer, update_document_version, hfind, hstatus,
      SvcOutcome.version?]
  · intro db did rid sig cmts now d hfind hstatus
    refine ⟨?_, ?_, ?_⟩
    · simp [review_document_action, update_document_version, hfind, hstatus,
        SvcOutcome.version?]
    · cases hbm : bump_major d.version <;>
        simp [review_document_action, update_document_version, hfind, hstatus, hbm,
          SvcOutcome.version?]
    · simp [send_document_to_approver, update_document_version, hfind, hstatus,
        SvcOutcome.version?]
  · intro db did rid sig cmts now d hfind hstatus
    refine ⟨?_, ?_⟩
    · simp [approve_document, update_document_version, hfind, hstatus,
        SvcOutcome.version?]
    · cases hbm : bump_major d.version <;>
        simp [approve_document, update_document_version, hfind, hstatus, hbm,
          SvcOutcome.version?]
  · intro db did uid now d hfind hstatus
    refine ⟨?_, ?_⟩
    · simp [resubmit_rejected_document, hfind, hstatus, SvcOutcome.version?]
    · simp [update_document_version, hstatus]

/-- Witness for C7 (amended): concrete agreement of the approver-reject
write with the policy, and the concrete resubmit divergence premises. -/
theorem document_version_writes_vs_policy_witness :
    ((approve_document
      ⟨[{ id := 1
          status := DocumentStatusEnum.under_approval
          version := "1.1"
          assigned_approver_id := some 3
          approved_at := none
          updated_at := none
          created_at := none
          deleted_at := none
          title := "SOP-5" }], []⟩ 1 "sig" false 3 none 30).2).version? =
      update_document_version
        { id := 1
          status := DocumentStatusEnum.under_approval
          version := "1.1"
          assigned_approver_id := some 3
          approved_at := none
          updated_at := none
          created_at := none
          deleted_at := none
          title := "SOP-5" } DocumentStatusEnum.rejected
    ∧ ((resubmit_rejected_document
      ⟨[{ id := 2
          status := DocumentStatusEnum.rejected
          version := "2.0"
          assigned_approver_id := none
          approved_at := none
          updated_at := none
          created_at := none
          deleted_at := none
          title := "SOP-6" }], []⟩ 2 7 50).2).version? = some "1.0"
    ∧ update_document_version
        { id := 2
          status := DocumentStatusEnum.rejected
          version := "2.0"
          assigned_approver_id := none
          approved_at := none
          updated_at := none
          created_at := none
          deleted_at := none
          title := "SOP-6" } DocumentStatusEnum.draft =
      bump_major "2.0" :=
  ⟨(document_version_writes_vs_policy.2.2.2.1
      ⟨[{ id := 1
          status := DocumentStatusEnum.under_approval
          version := "1.1"
          assigned_approver_id := some 3
          approved_at := none
          updated_at := none
          created_at := none
          deleted_at := none
          title := "SOP-5" }], []⟩ 1 3 "sig" none 30
      { id := 1
        status := DocumentStatusEnum.under_approval
        version := "1.1"
        assigned_approver_id := some 3
        approved_at := none
        updated_at := none
        created_at := none
        deleted_at := none
        title := "SOP-5" } rfl rfl).2,
   (document_version_writes_vs_policy.2.2.2.2
      ⟨[{ id := 2
          status := DocumentStatusEnum.rejected
          version := "2.0"
          assigned_approver_id := none
          approved_at := none
          updated_at := none
          created_at := none
          deleted_at := none
          title := "SOP-6" }], []⟩ 2 7 50
      { id := 2
        status := DocumentStatusEnum.rejected
        version := "2.0"
        assigned_approver_id := none
        approved_at := none
        updated_at := none
        created_at := none
        deleted_at := none
        title := "SOP-6" } rfl rfl)⟩

/-- Counterexample to C7 as stated: for a rejected document at version
`"2.0"`, resubmit writes `"1.0"`, while the policy function assigns
`"3.0"` for a draft reached from `rejected` — the written value differs
from the policy result. -/
theorem resubmit_version_differs_from_policy :
    ((resubmit_rejected_document
      ⟨[{ id := 2
          status := DocumentStatusEnum.rejected
          version := "2.0"
          assigned_approver_id := none
          approved_at := none
          updated_at := none
          created_at := none
          deleted_at := none
          title := "SOP-6" }], []⟩ 2 7 50).2).version? = some "1.0"
    ∧ update_document_version
        { id := 2
          status := DocumentStatusEnum.rejected
          version := "2.0"
          assigned_approver_id := none
          approved_at := none
          updated_at := none
          created_at := none
          deleted_at := none
          title := "SOP-6" } DocumentStatusEnum.draft = some "3.0"
    ∧ (some "1.0" : Option String) ≠ some "3.0" := by
  refine ⟨by decide, by decide, by decide⟩

/-- Every alert produced by the training scan is titled `"Training Due"`. -/
lemma trainingAlerts_title (now : Int) (a : TrainingAssignment) (x : Alert)
    (hx : x ∈ trainingAlerts now a) : x.title = "Training Due" := by
  unfold trainingAlerts at hx
  repeat' split at hx <;> simp_all

/-- The document scan of the sweep produces nothing: it compares the
CPython `str()` rendering `"DocumentStatusEnum.<name>"` against bare value
strings, so its condition never holds. -/
lemma docAlerts_eq_nil (now : Int) (d : Document) : docAlerts now d = [] := by
  cases hs : d.status <;>
    simp [docAlerts, DocumentStatusEnum.pyStr, DocumentStatusEnum.value, hs]

/-- An alert titled `"CAPA Overdue"` comes only from a CAPA in status
`OPEN` whose due date lies strictly in the past. -/
lemma capaAlerts_overdue_inv (now : Int) (c : CAPA) (x : Alert)
    (hx : x ∈ capaAlerts now c) (ht : x.title = "CAPA Overdue") :
    c.status = CAPAStatusEnum.open_ ∧ ∃ due, c.due_date = some due ∧ due < now := by
  unfold capaAlerts at hx
  split at hx
  · simp_all
  · split at hx
    · rename_i hopen
      split at hx
      · simp_all
      · rename_i dt heq
        split at hx
        · rename_i hlt
          exact ⟨hopen, dt, heq, hlt⟩
        · simp_all
    · simp_all

/-- C8 (amended): the sweep emits a `"CAPA Overdue"` alert exactly for
CAPAs in status `OPEN` with `due_date < now`: every overdue alert arises
from such a CAPA, every such CAPA yields one, and a CAPA in
`IN PROGRESS` contributes no alert at all — in particular no overdue alert
is produced for an in-progress CAPA with a past due date.  (Training
assignments surface under the distinct title `"Training Due"`.) -/
theorem capa_overdue_alert_characterization :
    (∀ (db : NotifDB) (now : Int) (uid : Option Nat) (x : Alert),
      x ∈ get_notifications db now uid →
      x.title = "CAPA Overdue" →
      ∃ c, c ∈ db.capas ∧ c.deleted_at = none
        ∧ c.status = CAPAStatusEnum.open_
        ∧ ∃ due, c.due_date = some due ∧ due < now)
    ∧ (∀ (db : NotifDB) (now : Int) (uid : Option Nat) (c : CAPA) (due : Int),
      c ∈ db.capas → c.deleted_at = none →
      c.status = CAPAStatusEnum.open_ →
      c.due_date = some due → due < now →
      ({ title := "CAPA Overdue"
         message := c.capa_code ++ " requires action"
         time_ago := relative_time now (some due) } : Alert)
        ∈ get_notifications db now uid)
    ∧ (∀ (now : Int) (c : CAPA),
      c.status = CAPAStatusEnum.in_progress → capaAlerts now c = []) := by
  refine ⟨?_, ?_, ?_⟩
  · intro db now uid x hx ht
    unfold get_notifications at hx
    rcases List.mem_append.1 hx with h | h
    · rcases List.mem_append.1 h with h | h
      · rw [List.mem_flatten] at h
        obtain ⟨l, hl, hxl⟩ := h
        rw [List.mem_map] at hl
        obtain ⟨a, _, rfl⟩ := hl
        have := trainingAlerts_title now a x hxl
        rw [this] at ht
        exact absurd ht (by decide)
      · rw [List.mem_flatten] at h
        obtain ⟨l, hl, hxl⟩ := h
        rw [List.mem_map] at hl
        obtain ⟨c, hcf, rfl⟩ := hl
        rw [List.mem_filter] at hcf
        obtain ⟨hcmem, hcdel⟩ := hcf
        obtain ⟨hopen, due, hdue, hlt⟩ := capaAlerts_overdue_inv now c x hxl ht
        exact ⟨c, hcmem, by simpa using hcdel, hopen, due, hdue, hlt⟩
    · rw [List.mem_flatten] at h
      obtain ⟨l, hl, hxl⟩ := h
      rw [List.mem_map] at hl
      obtain ⟨d, _, rfl⟩ := hl
      rw [docAlerts_eq_nil] at hxl
      exact absurd hxl (List.not_mem_nil x)
  · intro db now uid c due hc hdel hst hdue hlt
    unfold get_notifications
    refine List.mem_append.2 (Or.inl (List.mem_append.2 (Or.inr ?_)))
    rw [List.mem_flatten]
    refine ⟨capaAlerts now c, List.mem_map.2 ⟨c, List.mem_filter.2 ⟨hc, ?_⟩, rfl⟩, ?_⟩
    · simp [hdel]
    · simp [capaAlerts, hst, hdue, hlt]
  · intro now c hst
    simp [capaAlerts, hst]

/-- Witness for C8 (amended): a concrete open CAPA past its due date
yields a concrete overdue alert in the sweep output. -/
theorem capa_overdue_alert_characterization_witness :
    ({ title := "CAPA Overdue"
       message := "CAPA-7 requires action"
       time_ago := relative_time 100 (some 5) } : Alert)
      ∈ get_notifications
        ⟨[], [{ id := 1
                capa_code := "CAPA-7"
                status := CAPAStatusEnum.open_
                assigned_to := some 5
                assigned_by := 9
                due_date := some 5
                started_date := none
                completed_date := none
                closed_date := none
                action_taken := none
                completion_notes := none
                evidence_files := []
                updated_at := none
                deleted_at := none }], []⟩ 100 none :=
  capa_overdue_alert_characterization.2.1
    ⟨[], [{ id := 1
            capa_code := "CAPA-7"
            status := CAPAStatusEnum.open_
            assigned_to := some 5
            assigned_by := 9
            due_date := some 5
            started_date := none
            completed_date := none
            closed_date := none
            action_taken := none
            completion_notes := none
            evidence_files := []
            updated_at := none
            deleted_at := none }], []⟩ 100 none
    { id := 1
      capa_code := "CAPA-7"
      status := CAPAStatusEnum.open_
      assigned_to := some 5
      assigned_by := 9
      due_date := some 5
      started_date := none
      completed_date := none
      closed_date := none
      action_taken := none
      completion_notes := none
      evidence_files := []
      updated_at := none
      deleted_at := none } 5
    (by simp) rfl rfl rfl (by decide)

/-- Counterexample to C8 as stated: a CAPA in `IN PROGRESS` with a past
due date produces no alert at all — the sweep output is empty, with no
`"CAPA Overdue"` entry. -/
theorem in_progress_capa_past_due_no_alert :
    get_notifications
      ⟨[], [{ id := 1
              capa_code := "CAPA-8"
              status := CAPAStatusEnum.in_progress
              assigned_to := some 5
              assigned_by := 9
              due_date := some 5
              started_date := some 2
              completed_date := none
              closed_date := none
              action_taken := none
              completion_notes := none
              evidence_files := []
              updated_at := none
              deleted_at := none }], []⟩ 100 none = [] := by
  decide

/-- C9: the notification sweep is strictly read-only — for every database
state and every input, the committed tables after `get_notifications` are
exactly the tables before it; the call only produces its returned alert
list. -/
theorem get_notifications_read_only :
    ∀ (db : NotifDB) (now : Int) (current_user_id : Option Nat),
      (get_notifications_st db now current_user_id).1 = db
      ∧ (get_notifications_st db now current_user_id).2 =
          get_notifications db now current_user_id :=
  fun _ _ _ => ⟨rfl, rfl⟩

/-- C10: for a document under review, `review_document_action` terminates
normally only for actions `"reject"`/`"review"`; any other action string
first commits the `DocumentReview` row and the `updated_at` change and then
raises an unhandled `UnboundLocalError` (the success-message variable is
never bound); the HTTP layer (`reviewer_action`) rejects any such action
with a 400 before the service runs, keeping the crash-after-commit path
unreachable through the public interface. -/
theorem review_action_crash_after_commit :
    (∀ (db : DocDB) (did rid : Nat) (action sig : String) (cmts : Option String)
        (now : Int) (d : Document),
      findDocument db.docs did = some d →
      d.status = DocumentStatusEnum.under_review →
      action ≠ "reject" → action ≠ "review" →
      review_document_action db did rid action sig cmts now =
        (⟨setDocument db.docs { d with updated_at := some now },
          db.reviews ++ [{ document_id := did
                           reviewer_id := some rid
                           action := action
                           signature := sig
                           comments := cmts }]⟩,
         .raised "UnboundLocalError"))
    ∧ (∀ (db : DocDB) (did : Nat) (action sig : String) (cmts : Option String)
        (uid : Nat) (now : Int),
      lowerStr action ≠ "review" → lowerStr action ≠ "reject" →
      reviewer_action db did action sig cmts uid now =
        (db, .httpError 400 "Action must be review or reject")) := by
  constructor
  · intro db did rid action sig cmts now d hfind hstatus h1 h2
    simp [review_document_action, hfind, hstatus, h1, h2]
  · intro db did action sig cmts uid now h1 h2
    simp [reviewer_action, h1, h2]

/-- Witness for C10: the service crash path at the concrete action
`"comment"`, and the HTTP layer rejecting that same action. -/
theorem review_action_crash_after_commit_witness :
    review_document_action
      ⟨[{ id := 1
          status := DocumentStatusEnum.under_review
          version := "1.1"
          assigned_approver_id := none
          approved_at := none
          updated_at := none
          created_at := none
          deleted_at := none
          title := "SOP-7" }], []⟩ 1 2 "comment" "sig" none 10 =
      (⟨[{ id := 1
           status := DocumentStatusEnum.under_review
           version := "1.1"
           assigned_approver_id := none
           approved_at := none
           updated_at := some 10
           created_at := none
           deleted_at := none
           title := "SOP-7" }],
        [{ document_id := 1
           reviewer_id := some 2
           action := "comment"
           signature := "sig"
           comments := none }]⟩,
       .raised "UnboundLocalError")
    ∧ reviewer_action
      ⟨[{ id := 1
          status := DocumentStatusEnum.under_review
          version := "1.1"
          assigned_approver_id := none
          approved_at := none
          updated_at := none
          created_at := none
          deleted_at := none
          title := "SOP-7" }], []⟩ 1 "comment" "sig" none 2 10 =
      (⟨[{ id := 1
           status := DocumentStatusEnum.under_review
           version := "1.1"
           assigned_approver_id := none
           approved_at := none
           updated_at := none
           created_at := none
           deleted_at := none
           title := "SOP-7" }], []⟩,
       .httpError 400 "Action must be review or reject") :=
  ⟨review_action_crash_after_commit.1
      ⟨[{ id := 1
          status := DocumentStatusEnum.under_review
          version := "1.1"
          assigned_approver_id := none
          approved_at := none
          updated_at := none
          created_at := none
          deleted_at := none
          title := "SOP-7" }], []⟩ 1 2 "comment" "sig" none 10
      { id := 1
        status := DocumentStatusEnum.under_review
        version := "1.1"
        assigned_approver_id := none
        approved_at := none
        updated_at := none
        created_at := none
        deleted_at := none
        title := "SOP-7" } rfl rfl (by decide) (by decide),
   review_action_crash_after_commit.2
      ⟨[{ id := 1
          status := DocumentStatusEnum.under_review
          version := "1.1"
          assigned_approver_id := none
          approved_at := none
          updated_at := none
          created_at := none
          deleted_at := none
          title := "SOP-7" }], []⟩ 1 "comment" "sig" none 2 10
      (by decide) (by decide)⟩

end QMS
